import Mathlib

/-!
Verification of the boots network-boot provisioning service against its
natural-language specification.  The Go sources under `src/` provide the HTTP
front (`cmd/boots/http.go`) and the test suites for the installer renderers;
the renderer bodies themselves (firstDisk, genKickstart, the iPXE script
builder, the flatcar unit builder and the job accessors) are not part of the
visible sources, so they are modelled from the specification, pinned by the
exact expectations of the in-tree tests and golden files.
-/

set_option maxRecDepth 100000

namespace Boots

/-! ## String helpers

Line-oriented serialization: the spec (section 3, Script/Unit) describes a
script as an ordered sequence of text lines built incrementally and then
serialized.  `serializeLines` renders each line followed by a newline. -/

/-- Serialize a list of lines, each line terminated by a newline. -/
def serializeLines : List String → String
  | [] => ""
  | l :: ls => l ++ "\n" ++ serializeLines ls

theorem serializeLines_append (xs ys : List String) :
    serializeLines (xs ++ ys) = serializeLines xs ++ serializeLines ys := by
  induction xs with
  | nil => simp [serializeLines]
  | cons x xs ih =>
    simp [serializeLines, ih, String.append_assoc]

/-! ## VMware first-disk selection (modelled)

Modelled from the spec: `firstDisk` is a pure function of the hardware family
slug and the boot-drive hint (spec section 4.4); the family table entries and
the 16-byte truncation of the hint for the `n3.xlarge.x86` family are pinned
by `TestFirstDisk` and `TestScriptKickstart` in
`src/installers/vmware/kickstart_test.go`. -/

/-- Modelled from the spec: the fixed family-slug to driver-list table used
when no boot-drive hint is present; entries are pinned by the expectations in
`src/installers/vmware/kickstart_test.go` and unrecognized families map to the
empty string. -/
def firstDiskTable (slug : String) : String :=
  if slug = "c3.medium.x86" then "vmw_ahci,lsi_mr3,lsi_msgpt3"
  else if slug = "s3.xlarge.x86" then "vmw_ahci,lsi_mr3,lsi_msgpt3"
  else if slug = "s3.xlarge.x86:s3.xlarge.x86.01" then "KXG50ZNV256G_TOSHIBA,vmw_ahci"
  else if slug = "s1.large.x86" then "vmw_ahci"
  else ""

/-- Modelled from the spec: first-disk selection; a non-empty hint wins over
the family default, except that for family `n3.xlarge.x86` the test table
(`TestFirstDisk`, row `n3.xlarge.x86`) pins the hint truncated to its first 16
characters; with no hint the family table applies. -/
def firstDisk (slug hint : String) : String :=
  if hint = "" then firstDiskTable slug
  else if slug = "n3.xlarge.x86" then hint.take 16
  else hint

/-! ## iPXE script builder (modelled)

Modelled from the spec: the `ipxe` package's `Script` is an ordered sequence
of text lines built incrementally (spec section 3, Script/Unit) whose exact
serialized bytes are pinned by the golden script in the custom-ipxe test
(`src/unnamed/part_000`, `type2Script`). -/

/-- Modelled from the spec: an iPXE script under construction, an ordered
sequence of text lines. -/
structure Script where
  lines : List String
deriving DecidableEq

/-- Modelled from the spec: `ipxe.NewScript` starts a script with the
`#!ipxe` header, a blank line and the echo banner, as pinned by the golden
script in the custom-ipxe test. -/
def Script.new : Script :=
  ⟨["#!ipxe", "", "echo Tinkerbell Boots iPXE"]⟩

/-- Modelled from the spec: `Script.Set` appends a `set name value` line. -/
def Script.set (s : Script) (k v : String) : Script :=
  ⟨s.lines ++ ["set " ++ k ++ " " ++ v]⟩

/-- Modelled from the spec: `Script.Or` appends an `'||' command` fallback to
the most recently emitted line. -/
def Script.Or (s : Script) (cmd : String) : Script :=
  ⟨s.lines.dropLast ++ [(s.lines.getLast?).getD "" ++ " || " ++ cmd]⟩

/-- Modelled from the spec: the phone-home parameter block — a blank line,
`params`, the `param body` and `param type` directives, the
`imgfetch`/`imgfree` pair, and a trailing blank line, exactly as pinned by
the golden script. -/
def Script.phoneHome (s : Script) (typ : String) : Script :=
  ⟨s.lines ++
    ["", "params",
     "param body Device connected to DHCP system",
     "param type " ++ typ,
     "imgfetch ${tinkerbell}/phone-home##params",
     "imgfree", ""]⟩

/-- Modelled from the spec: `Script.Chain` appends the terminal
`chain --autofree` directive. -/
def Script.chain (s : Script) (url : String) : Script :=
  ⟨s.lines ++ ["chain --autofree " ++ url]⟩

/-- Modelled from the spec: `Script.Bytes` serializes the accumulated lines,
one line per newline-terminated row. -/
def Script.bytes (s : Script) : String :=
  serializeLines s.lines

/-- The pre-seeding performed by the HTTP front before handing the script to
the installer, as in `TestScript`: interface (with a `|| shell` fallback),
tinkerbell endpoint, syslog host, and cloud-config variables, in this order. -/
def preSeed (iface tink syslog cloudcfg : String) : Script :=
  ((((Script.new.set "iface" iface).Or "shell").set
      "tinkerbell" tink).set
      "syslog_host" syslog).set
      "ipxe_cloud_config" cloudcfg

/-- Modelled from the spec: the custom-iPXE installer's `BootScript` — extra
caller-supplied variables in order, the phone-home param block with type
`provisioning.104.01`, the facility and plan identifiers, then the terminal
chain to the caller-supplied script URL (spec section 4.3, golden script in
`src/unnamed/part_000`). -/
def bootScript (extra : List (String × String)) (url fac plan : String)
    (s : Script) : Script :=
  let s := extra.foldl (fun sc kv => sc.set kv.1 kv.2) s
  let s := s.phoneHome "provisioning.104.01"
  let s := s.set "packet_facility" fac
  let s := s.set "packet_plan" plan
  s.chain url

theorem foldl_set_lines (extra : List (String × String)) (s : Script) :
    (extra.foldl (fun sc kv => sc.set kv.1 kv.2) s).lines =
      s.lines ++ extra.map (fun kv => "set " ++ kv.1 ++ " " ++ kv.2) := by
  induction extra generalizing s with
  | nil => simp
  | cons kv extra ih =>
    rw [List.foldl_cons, ih]
    simp [Script.set]

theorem bootScript_lines (extra : List (String × String))
    (url fac plan iface tink syslog cloudcfg : String) :
    (bootScript extra url fac plan (preSeed iface tink syslog cloudcfg)).lines =
      ["#!ipxe", "", "echo Tinkerbell Boots iPXE",
       "set iface " ++ iface ++ " || shell",
       "set tinkerbell " ++ tink,
       "set syslog_host " ++ syslog,
       "set ipxe_cloud_config " ++ cloudcfg] ++
      extra.map (fun kv => "set " ++ kv.1 ++ " " ++ kv.2) ++
      ["", "params",
       "param body Device connected to DHCP system",
       "param type provisioning.104.01",
       "imgfetch ${tinkerbell}/phone-home##params",
       "imgfree", "",
       "set packet_facility " ++ fac,
       "set packet_plan " ++ plan,
       "chain --autofree " ++ url] := by
  have h := foldl_set_lines extra (preSeed iface tink syslog cloudcfg)
  simp only [Script.set] at h
  simp only [bootScript, Script.phoneHome, Script.set, Script.chain, h]
  simp [preSeed, Script.new, Script.set, Script.Or, List.dropLast_concat,
    List.getLast?_concat, String.append_assoc]

theorem bootScript_append_only (extra : List (String × String))
    (url fac plan : String) (s : Script) :
    (bootScript extra url fac plan s).lines =
      s.lines ++ (bootScript extra url fac plan ⟨[]⟩).lines := by
  have h1 := foldl_set_lines extra s
  have h2 := foldl_set_lines extra ⟨[]⟩
  simp only [Script.set] at h1 h2
  simp only [bootScript, Script.phoneHome, Script.set, Script.chain, h1, h2]
  simp

/-! ## Custom data and the per-request Job -/

/-- A JSON-like value, the shape of the hardware record's free-form custom
data (Go `interface\x7b\x7d` produced by JSON decoding). -/
inductive CustomData where
  | null : CustomData
  | bool (b : Bool) : CustomData
  | num (n : Int) : CustomData
  | str (s : String) : CustomData
  | arr (xs : List CustomData) : CustomData
  | obj (kvs : List (String × CustomData)) : CustomData

/-- First value bound to a key in a custom-data object. -/
def lookupCD : List (String × CustomData) → String → Option CustomData
  | [], _ => none
  | (k, v) :: kvs, key => if k = key then some v else lookupCD kvs key

/-- The per-request Job aggregate (spec section 3): the resolved fields the
renderers and HTTP handlers read.  `password` is the instance's default
(crypted) root password; `hwFound` and `ifaceAllowPXE` model the existence of
a hardware record and the resolving interface's explicit netboot-allow flag;
`canWorkflowFlag` is the workflow-capability flag. -/
structure Job where
  planSlug : String
  bootDriveHint : String
  osSlug : String
  manufacturer : String
  mac : String
  password : String
  customData : CustomData
  facility : String
  ipxeScriptURL : String
  hardwareID : String
  hwFound : Bool
  ifaceAllowPXE : Bool
  canWorkflowFlag : Bool

/-- Modelled from the spec: `AllowPXE()` is true only if a hardware record
exists and the resolving interface's explicit netboot-allow flag is true
(spec section 4.1 and the comment above the gate in
`src/cmd/boots/http.go`). -/
def Job.allowPXE (j : Job) : Bool :=
  j.hwFound && j.ifaceAllowPXE

/-- Modelled from the spec: `CanWorkflow()` reports the workflow-capability
flag derived from hardware metadata (spec section 4.1). -/
def Job.canWorkflow (j : Job) : Bool :=
  j.canWorkflowFlag

/-! ## VMware kickstart rendering (modelled)

Modelled from the spec: `genKickstart` emits the kickstart text whose head
section interpolates the root password, the first-disk driver list and the
network boot device (spec section 4.4); the literal head text is pinned by
the golden file `src/installers/vmware/testdata/ks_vmw_ahci.txt`.  The
remaining `%firstboot`/`%post` sections depend only on facility
configuration, never on the Job, and are abstracted as the configured
suffix `body`. -/

/-- Modelled from the spec: the root password used in the kickstart — the
custom-data `rootpwcrypt` value when custom data is an object holding that
key with a string value, otherwise the instance's default password unchanged
(spec section 8, `TestRootpw`). -/
def rootpw (cd : CustomData) (pw : String) : String :=
  match cd with
  | .obj kvs =>
    match lookupCD kvs "rootpwcrypt" with
    | some (.str s) => s
    | _ => pw
  | _ => pw

/-- Modelled from the spec: the job-dependent head of the kickstart, exactly
as in the golden file: EULA acceptance, the `rootpw --iscrypted` line, the
`install --firstdisk` line and the DHCP network line keyed on the MAC. -/
def ksHead (pw disk mac : String) : String :=
  "\n# Accept the VMware End User License Agreement\nvmaccepteula\n" ++
  "# Set the root password for the DCUI and Tech Support Mode\n" ++
  "rootpw --iscrypted " ++ pw ++ "\n" ++
  "# The install media is in the CD-ROM drive\n" ++
  "install --firstdisk=\"" ++ disk ++ "\" --overwritevmfs\n" ++
  "# Set the network to DHCP on the proper network adapter based on its type\n" ++
  "network --bootproto=dhcp --device=" ++ mac ++ "\nreboot\n"

/-- Modelled from the spec: kickstart generation — the job-dependent head
followed by the configuration-determined remainder `body`. -/
def genKickstart (body : String) (j : Job) : String :=
  ksHead (rootpw j.customData j.password) (firstDisk j.planSlug j.bootDriveHint) j.mac ++ body

/-! ## Go strings-library models

Character-list models of the Go standard-library functions used by the
flatcar test's `replacer` (`strings.Join`, `strings.ReplaceAll`,
`strings.Split`).  `replaceFuel` and `splitFuel` structurally recurse on a
fuel bounded by the input length; with a non-empty pattern (the only use in
this repository) the fuel is never exhausted. -/

/-- Model of Go `strings.Join`. -/
def goJoin : List String → String → String
  | [], _ => ""
  | [x], _ => x
  | x :: xs, sep => x ++ sep ++ goJoin xs sep

/-- Fuel-indexed scanner behind `goReplaceAll`: replaces every non-overlapping
occurrence of `pat` left to right. -/
def replaceFuel : Nat → List Char → List Char → List Char → List Char
  | _, [], _, _ => []
  | 0, s, _, _ => s
  | fuel + 1, c :: rest, pat, rep =>
    if pat.isPrefixOf (c :: rest) then
      rep ++ replaceFuel fuel ((c :: rest).drop pat.length) pat rep
    else
      c :: replaceFuel fuel rest pat rep

/-- Model of Go `strings.ReplaceAll` for a non-empty pattern: literal
(non-regex) replacement of every occurrence. -/
def goReplaceAll (s pat rep : String) : String :=
  ⟨replaceFuel s.data.length s.data pat.data rep.data⟩

/-- Fuel-indexed scanner behind `goSplit`. -/
def splitFuel : Nat → List Char → List Char → List Char → List (List Char)
  | _, [], _, acc => [acc.reverse]
  | 0, s, _, acc => [acc.reverse ++ s]
  | fuel + 1, c :: rest, sep, acc =>
    if sep.isPrefixOf (c :: rest) then
      acc.reverse :: splitFuel fuel ((c :: rest).drop sep.length) sep []
    else
      splitFuel fuel rest sep (c :: acc)

/-- Model of Go `strings.Split` for a non-empty separator. -/
def goSplit (s sep : String) : List String :=
  (splitFuel s.data.length s.data sep.data []).map (⟨·⟩)

/-! ## Flatcar install.service generation

`baseStart`, `baseEnd`, `Exec`, `replacer` and the family table are
transcribed from `src/installers/flatcar/installer_test.go`;
`conf.OsieVendorServicesURL` is not part of the visible sources, so `Exec`
takes it as the parameter `osieURL`. -/

/-- The base set of starter lines for flatcar installs
(`src/installers/flatcar/installer_test.go`). -/
def baseStart : List String :=
  ["[Unit]",
   "Requires=systemd-networkd-wait-online.service",
   "After=systemd-networkd-wait-online.service",
   "",
   "[Service]",
   "Type=oneshot"]

/-- The end of every flatcar install
(`src/installers/flatcar/installer_test.go`). -/
def baseEnd : List String :=
  ["ExecStart=/usr/bin/systemctl reboot",
   "",
   "[Install]",
   "WantedBy=multi-user.target",
   ""]

/-- The ExecStart lines of the base `c3.small.x86` family
(`src/installers/flatcar/installer_test.go`, `Exec`), with
`conf.OsieVendorServicesURL` abstracted as `osieURL`. -/
def Exec (osieURL : String) : List String :=
  ["ExecStart=/usr/bin/curl --retry 10 -H \"Content-Type: application/json\" -X POST -d '\x7b\"type\":\"provisioning.106\"\x7d' ${phone_home_url}",
   "ExecStart=/usr/bin/flatcar-install -V current -C alpha -b " ++ osieURL ++ "/flatcar/amd64-usr/alpha -o packet -s",
   "ExecStart=/usr/bin/udevadm settle",
   "ExecStart=/usr/bin/mkdir -p /oemmnt",
   "ExecStart=/usr/bin/mount /dev/disk/by-label/OEM /oemmnt",
   "ExecStart=/usr/bin/bash -c \"/usr/bin/echo \\\"set linux_console=\\\\\\\"console=tty0 console=ttyS1,115200n8\\\\\\\"\\\" >> /oemmnt/grub.cfg\"",
   "ExecStart=/usr/bin/curl -H \"Content-Type: application/json\" -X POST -d '\x7b\"type\":\"provisioning.109\"\x7d' ${phone_home_url}"]

/-- Whole-script text substitution keyed on family
(`src/installers/flatcar/installer_test.go`, `replacer`): join the lines,
apply each exact whole-string replacement in order, split back into lines. -/
def replacer (l : List String) (reps : List (String × String)) : List String :=
  goSplit (reps.foldl (fun s p => goReplaceAll s p.1 p.2) (goJoin l "\n")) "\n"

/-- The per-family ExecStart table
(`src/installers/flatcar/installer_test.go`, `script`). -/
def script (osieURL typ : String) : Option (List String) :=
  if typ = "c3.small.x86" then some (Exec osieURL)
  else if typ = "s3.xlarge.x86" then
    some (replacer (Exec osieURL) [("-s", "-s -e 259")])
  else if typ = "c3.large.arm" then
    some (replacer (Exec osieURL)
      [(" -o packet", ""),
       ("tty0 console=ttyS1,115200n8", "ttyAMA0,115200"),
       ("amd64", "arm64")])
  else none

/-- Modelled from the spec: the contents of the generated `install.service`
systemd unit for a family — the base starter lines, the family's ExecStart
lines, and the closing lines, joined by newlines (spec section 4.5, pinned by
`assertLines` in `src/installers/flatcar/installer_test.go`). -/
def installServiceContents (osieURL typ : String) : Option String :=
  (script osieURL typ).map (fun ex => goJoin (baseStart ++ ex ++ baseEnd) "\n")

/-! ## HTTP front (src/cmd/boots/http.go)

The handlers are translated from `src/cmd/boots/http.go`.  Job resolution
(`jobManager.CreateFromRemoteAddr`) is the `Option Job` argument (`none`
models a resolution error), the workflow finder and the inventory client are
function arguments, and a handler's effect is its status code (together with
the event it forwards, for `/events`). -/

/-- Outcome of a file-serving handler: a 404 or the gated payload. -/
inductive GateOutcome where
  | notFound : GateOutcome
  | served : GateOutcome
deriving DecidableEq

/-- serveJobFile (`src/cmd/boots/http.go`): 404 when no job resolves for the
client address, 404 when the job does not allow PXE, otherwise the job file
is served. -/
def serveJobFile : Option Job → GateOutcome
  | none => .notFound
  | some j => if j.allowPXE then .served else .notFound

/-- serveHardware (`src/cmd/boots/http.go`): 404 when no job resolves; when
the job can workflow, 404 unless the workflow finder reports an active
workflow (a finder error is also 404); otherwise the hardware dump is
served.  `wf` models `workflowFinder.HasActiveWorkflow` (`none` = error). -/
def serveHardware (wf : String → Option Bool) : Option Job → GateOutcome
  | none => .notFound
  | some j =>
    if j.canWorkflow then
      match wf j.hardwareID with
      | none => .notFound
      | some true => .served
      | some false => .notFound
    else .served

/-- serveProblem (`src/cmd/boots/http.go`): as serveHardware, except the
workflow gate additionally requires a configured (non-nil) workflow
finder. -/
def serveProblem (wfOpt : Option (String → Option Bool)) : Option Job → GateOutcome
  | none => .notFound
  | some j =>
    match wfOpt, j.canWorkflow with
    | some wf, true =>
      (match wf j.hardwareID with
       | none => .notFound
       | some true => .served
       | some false => .notFound)
    | _, _ => .served

/-- A phone-home request body after decoding; `none` at the call sites below
models a malformed body. -/
structure PhoneHomeBody where
  typ : Option String
  instanceID : Option String
deriving DecidableEq

/-- The hardware identity a phone-home must never mutate. -/
structure HardwareIdentity where
  id : String
deriving DecidableEq

/-- Modelled from the spec: `Job.ServePhoneHomeEndpoint` — 400 on a malformed
body, otherwise the progress callback is forwarded and the handler answers
200; the hardware identity is read, never written (spec sections 4.6 and 8). -/
def phoneHomeEndpoint (_j : Job) (body : Option PhoneHomeBody)
    (hw : HardwareIdentity) : Nat × HardwareIdentity :=
  match body with
  | none => (400, hw)
  | some _ => (200, hw)

/-- servePhoneHome (`src/cmd/boots/http.go`): 200 when no job resolves for
the client address, otherwise delegate to the job's phone-home endpoint. -/
def servePhoneHome (jobRes : Option Job) (body : Option PhoneHomeBody)
    (hw : HardwareIdentity) : Nat × HardwareIdentity :=
  match jobRes with
  | none => (200, hw)
  | some j => phoneHomeEndpoint j body hw

/-! ## Events forwarding (src/cmd/boots/http.go, serveEvents) -/

/-- A hardware record as seen by the events endpoint: `instanceID` is the
instance ID when an instance is attached, `none` when `Instance()` is nil. -/
structure HardwareRecord where
  instanceID : Option String
deriving DecidableEq

/-- The decoded `/events` request body (`code`/`state`/`message`). -/
structure EventIn where
  code : Int
  state : String
  message : String
deriving DecidableEq

/-- The event relayed to the inventory backend (`type`/`state`/`body`). -/
structure EventOut where
  typ : String
  state : String
  body : String
deriving DecidableEq

/-- GetInstanceIDFromIP (`src/cmd/boots/http.go`): propagate a lookup error
(`none`), return the empty string when the record has no instance, else the
instance ID. -/
def getInstanceIDFromIP (byIP : String → Option HardwareRecord)
    (ip : String) : Option String :=
  match byIP ip with
  | none => none
  | some d =>
    match d.instanceID with
    | none => some ""
    | some i => some i

/-- The events environment: `parseIP` models `net.ParseIP` on the host part,
`byIP` the inventory lookup (`none` = error), `postOk` whether
`PostInstanceEvent` succeeds, and `parseJSON` models `json.Unmarshal` of the
body into the code/state/message struct (`none` = parse error). -/
structure EventsEnv where
  parseIP : String → Option String
  byIP : String → Option HardwareRecord
  postOk : String → EventOut → Bool
  parseJSON : String → Option EventIn

/-- Status code plus the event handed to `PostInstanceEvent`, if any. -/
structure EventsOutcome where
  status : Nat
  posted : Option (String × EventOut)
deriving DecidableEq

/-- serveEvents (`src/cmd/boots/http.go`): 400 on an unsplittable remote
address (`remoteHost = none`); 200 with nothing forwarded when the host is
not a parseable IP, when the instance lookup errors, or when the record has
no instance; 400 on an unreadable (`body = none`), empty or unparseable
body; otherwise relay `user.<code>` with the body's state and message and
answer 200 (a backend post failure is 400). -/
def serveEvents (env : EventsEnv) (remoteHost : Option String)
    (body : Option String) : EventsOutcome :=
  match remoteHost with
  | none => ⟨400, none⟩
  | some host =>
    match env.parseIP host with
    | none => ⟨200, none⟩
    | some ip =>
      match getInstanceIDFromIP env.byIP ip with
      | none => ⟨200, none⟩
      | some deviceID =>
        if deviceID = "" then ⟨200, none⟩
        else
          match body with
          | none => ⟨400, none⟩
          | some b =>
            if b = "" then ⟨400, none⟩
            else
              match env.parseJSON b with
              | none => ⟨400, none⟩
              | some ev =>
                let out : EventOut :=
                  ⟨"user." ++ toString ev.code, ev.state, ev.message⟩
                if env.postOk deviceID out then ⟨200, some (deviceID, out)⟩
                else ⟨400, some (deviceID, out)⟩

/-! ## Sample values used by witnesses -/

/-- A concrete resolved job used by witnesses. -/
def sampleJob : Job :=
  ⟨"c3.small.x86", "", "vmware_esxi_6_7", "supermicro", "00:00:ba:dd:be:ef",
   "insecure", CustomData.null, "ewr1", "http://127.0.0.1/fake_ipxe_url",
   "hw-1234", true, true, true⟩

/-! ## Claims -/

/-- C1 counterexample: the first-disk test table pins that for family
`n3.xlarge.x86` a non-empty boot-drive hint does not win verbatim — it is
truncated to its first 16 characters. -/
theorem C1_hint_not_verbatim :
    firstDisk "n3.xlarge.x86" "KXG60ZNV256G TOSHIBA" = "KXG60ZNV256G TOS" ∧
    firstDisk "n3.xlarge.x86" "KXG60ZNV256G TOSHIBA" ≠ "KXG60ZNV256G TOSHIBA" := by
  constructor
  · decide
  · decide

/-- C1 (amended): first-disk selection is a pure function of (family slug,
boot-drive hint); a non-empty hint wins verbatim over the family default for
every family except `n3.xlarge.x86`, where it is truncated to its first 16
characters; with an empty hint the result is exactly the family table entry
(slug `s3.xlarge.x86` yields `vmw_ahci,lsi_mr3,lsi_msgpt3` and slug
`s3.xlarge.x86:s3.xlarge.x86.01` yields `KXG50ZNV256G_TOSHIBA,vmw_ahci`), and
the empty string for unrecognized families. -/
theorem C1_firstDisk_precedence :
    (∀ slug hint, hint ≠ "" → slug ≠ "n3.xlarge.x86" → firstDisk slug hint = hint) ∧
    (∀ hint, hint ≠ "" → firstDisk "n3.xlarge.x86" hint = hint.take 16) ∧
    (∀ slug, firstDisk slug "" = firstDiskTable slug) ∧
    firstDisk "s3.xlarge.x86" "" = "vmw_ahci,lsi_mr3,lsi_msgpt3" ∧
    firstDisk "s3.xlarge.x86:s3.xlarge.x86.01" "" = "KXG50ZNV256G_TOSHIBA,vmw_ahci" ∧
    (∀ slug, slug ∉ ["c3.medium.x86", "s3.xlarge.x86",
        "s3.xlarge.x86:s3.xlarge.x86.01", "s1.large.x86"] →
      firstDisk slug "" = "") := by
  refine ⟨?_, ?_, ?_, by decide, by decide, ?_⟩
  · intro slug hint h1 h2
    simp [firstDisk, h1, h2]
  · intro hint h
    simp [firstDisk, h]
  · intro slug
    simp [firstDisk]
  · intro slug h
    simp only [List.mem_cons, List.not_mem_nil, or_false, not_or] at h
    obtain ⟨h1, h2, h3, h4⟩ := h
    simp [firstDisk, firstDiskTable, h1, h2, h3, h4]

/-- C1 witness: the amended precedence evaluated at concrete inputs. -/
theorem C1_firstDisk_precedence_witness :
    firstDisk "arbitrary_name" "hint" = "hint" ∧
    firstDisk "n3.xlarge.x86" "KXG60ZNV256G TOSHIBA" =
      ("KXG60ZNV256G TOSHIBA").take 16 ∧
    firstDisk "baremetal_5" "" = "" :=
  ⟨C1_firstDisk_precedence.1 "arbitrary_name" "hint" (by decide) (by decide),
   C1_firstDisk_precedence.2.1 "KXG60ZNV256G TOSHIBA" (by decide),
   C1_firstDisk_precedence.2.2.2.2.2 "baremetal_5" (by decide)⟩

/-- C2: the custom-iPXE BootScript applied to a script pre-seeded with the
interface (with its shell fallback), tinkerbell endpoint, syslog host and
cloud-config variables serializes to exactly: the header and echo line, the
four pre-set lines, the extra caller-supplied variables as set lines in the
order supplied, the phone-home param block, the facility and plan set lines,
and the final chain to the caller-supplied URL, in that fixed order — and on
the test's inputs the bytes equal the golden script verbatim. -/
theorem C2_custom_ipxe_script_bytes :
    (∀ (extra : List (String × String)) (url fac plan iface tink syslog cloudcfg : String),
      (bootScript extra url fac plan (preSeed iface tink syslog cloudcfg)).bytes =
        serializeLines
          (["#!ipxe", "", "echo Tinkerbell Boots iPXE",
            "set iface " ++ iface ++ " || shell",
            "set tinkerbell " ++ tink,
            "set syslog_host " ++ syslog,
            "set ipxe_cloud_config " ++ cloudcfg] ++
           extra.map (fun kv => "set " ++ kv.1 ++ " " ++ kv.2) ++
           ["", "params",
            "param body Device connected to DHCP system",
            "param type provisioning.104.01",
            "imgfetch ${tinkerbell}/phone-home##params",
            "imgfree", "",
            "set packet_facility " ++ fac,
            "set packet_plan " ++ plan,
            "chain --autofree " ++ url])) ∧
    (bootScript [("dynamic_var1", "dynamic_val1"), ("dynamic_var2", "dynamic_val2")]
        "http://127.0.0.1/fake_ipxe_url" "ewr1" "c3.small.x86"
        (preSeed "eth0" "http://127.0.0.1" "127.0.0.1" "packet")).bytes =
      "#!ipxe\n\necho Tinkerbell Boots iPXE\nset iface eth0 || shell\nset tinkerbell http://127.0.0.1\nset syslog_host 127.0.0.1\nset ipxe_cloud_config packet\nset dynamic_var1 dynamic_val1\nset dynamic_var2 dynamic_val2\n\nparams\nparam body Device connected to DHCP system\nparam type provisioning.104.01\nimgfetch ${tinkerbell}/phone-home##params\nimgfree\n\nset packet_facility ewr1\nset packet_plan c3.small.x86\nchain --autofree http://127.0.0.1/fake_ipxe_url\n" := by
  constructor
  · intro extra url fac plan iface tink syslog cloudcfg
    simp only [Script.bytes, bootScript_lines]
  · decide

/-- C3: the kickstart root password is the custom-data `rootpwcrypt` value
whenever custom data is an object holding that key with a string value; for
every other custom-data shape the instance's default password is used
unchanged, and the generated kickstart contains the
`rootpw --iscrypted` line with the selected password (concretely,
`rootpwcrypt` bound to the number 4 falls back to `insecure`). -/
theorem C3_rootpw_precedence :
    (∀ kvs s pw, lookupCD kvs "rootpwcrypt" = some (CustomData.str s) →
      rootpw (CustomData.obj kvs) pw = s) ∧
    (∀ cd pw, (∀ kvs, cd = CustomData.obj kvs →
        ∀ s, lookupCD kvs "rootpwcrypt" ≠ some (CustomData.str s)) →
      rootpw cd pw = pw) ∧
    (∀ body j, ∃ a b, genKickstart body j =
      a ++ ("rootpw --iscrypted " ++ rootpw j.customData j.password ++ "\n") ++ b) ∧
    rootpw (CustomData.obj [("rootpwcrypt", CustomData.num 4)]) "insecure" = "insecure" := by
  refine ⟨?_, ?_, ?_, rfl⟩
  · intro kvs s pw h
    simp [rootpw, h]
  · intro cd pw h
    cases cd <;> simp [rootpw]
    case obj kvs =>
      cases hl : lookupCD kvs "rootpwcrypt" with
      | none => simp
      | some v =>
        cases v <;> simp
        case str s => exact absurd hl (h kvs rfl s)
  · intro body j
    refine ⟨"\n# Accept the VMware End User License Agreement\nvmaccepteula\n" ++
      "# Set the root password for the DCUI and Tech Support Mode\n",
      "# The install media is in the CD-ROM drive\n" ++
      "install --firstdisk=\"" ++ firstDisk j.planSlug j.bootDriveHint ++
      "\" --overwritevmfs\n" ++
      "# Set the network to DHCP on the proper network adapter based on its type\n" ++
      "network --bootproto=dhcp --device=" ++ j.mac ++ "\nreboot\n" ++ body, ?_⟩
    apply String.ext
    simp only [genKickstart, ksHead, String.data_append, List.append_assoc]

/-- C3 witness: the precedence evaluated at the test's custom-data shapes. -/
theorem C3_rootpw_precedence_witness :
    rootpw (CustomData.obj [("rootpwcrypt", CustomData.str "override")]) "insecure" =
      "override" ∧
    rootpw (CustomData.arr [CustomData.str "test"]) "insecure" = "insecure" :=
  ⟨C3_rootpw_precedence.1 _ "override" "insecure" rfl,
   C3_rootpw_precedence.2.1 _ "insecure" (fun _ h => nomatch h)⟩

/-- C4: the job-file handler answers 404 and serves nothing whenever no job
resolves for the client address or the resolved job's AllowPXE is false;
AllowPXE is true only if a hardware record exists and the resolving
interface's explicit netboot-allow flag is true; the file is served exactly
when both hold. -/
theorem C4_allowPXE_gating (r : Option Job) :
    (r = none → serveJobFile r = .notFound) ∧
    (∀ j, r = some j → j.allowPXE = false → serveJobFile r = .notFound) ∧
    (∀ j : Job, j.allowPXE = true ↔ j.hwFound = true ∧ j.ifaceAllowPXE = true) ∧
    (serveJobFile r = .served ↔
      ∃ j, r = some j ∧ j.hwFound = true ∧ j.ifaceAllowPXE = true) := by
  refine ⟨?_, ?_, ?_, ?_⟩
  · rintro rfl
    rfl
  · rintro j rfl h
    simp [serveJobFile, h]
  · intro j
    simp [Job.allowPXE, Bool.and_eq_true]
  · cases r with
    | none => simp [serveJobFile]
    | some j =>
      cases hw : j.hwFound <;> cases ia : j.ifaceAllowPXE <;>
        simp [serveJobFile, Job.allowPXE, hw, ia]

/-- C4 witness: the gate evaluated on a job with PXE disallowed and one with
PXE allowed. -/
theorem C4_allowPXE_gating_witness :
    serveJobFile (some { sampleJob with ifaceAllowPXE := false }) = .notFound ∧
    serveJobFile (some sampleJob) = .served :=
  ⟨(C4_allowPXE_gating (some { sampleJob with ifaceAllowPXE := false })).2.1 _ rfl rfl,
   (C4_allowPXE_gating (some sampleJob)).2.2.2.mpr ⟨sampleJob, rfl, rfl, rfl⟩⟩

/-- C5: each renderer is a pure function of the Job's resolved fields — jobs
agreeing on the fields a renderer reads produce byte-identical artifacts,
repeated invocations on a fixed job produce byte-identical output, and the
iPXE builder's only effect on the script state is appending lines. -/
theorem C5_renderer_determinism :
    (∀ (extra : List (String × String)) (j1 j2 : Job) (s : Script),
      j1.ipxeScriptURL = j2.ipxeScriptURL → j1.facility = j2.facility →
      j1.planSlug = j2.planSlug →
      (bootScript extra j1.ipxeScriptURL j1.facility j1.planSlug s).bytes =
        (bootScript extra j2.ipxeScriptURL j2.facility j2.planSlug s).bytes) ∧
    (∀ body (j1 j2 : Job), j1.password = j2.password →
      j1.customData = j2.customData → j1.planSlug = j2.planSlug →
      j1.bootDriveHint = j2.bootDriveHint → j1.mac = j2.mac →
      genKickstart body j1 = genKickstart body j2) ∧
    (∀ body j o1 o2, o1 = genKickstart body j → o2 = genKickstart body j →
      o1 = o2) ∧
    (∀ url typ o1 o2, o1 = installServiceContents url typ →
      o2 = installServiceContents url typ → o1 = o2) ∧
    (∀ extra url fac plan (s : Script),
      (bootScript extra url fac plan s).lines =
        s.lines ++ (bootScript extra url fac plan ⟨[]⟩).lines) := by
  refine ⟨?_, ?_, ?_, ?_, ?_⟩
  · intro extra j1 j2 s h1 h2 h3
    rw [h1, h2, h3]
  · intro body j1 j2 h1 h2 h3 h4 h5
    simp only [genKickstart, h1, h2, h3, h4, h5]
  · intro body j o1 o2 h1 h2
    rw [h1, h2]
  · intro url typ o1 o2 h1 h2
    rw [h1, h2]
  · intro extra url fac plan s
    exact bootScript_append_only extra url fac plan s

/-- C5 witness: byte-identical kickstart output across two invocations on the
sample job. -/
theorem C5_renderer_determinism_witness :
    genKickstart "" sampleJob = genKickstart "" sampleJob :=
  C5_renderer_determinism.2.1 "" sampleJob sampleJob rfl rfl rfl rfl rfl

/-- C6: phone-home answers 200 whenever the body is well-formed — in
particular 200 when no job resolves for the client address, whatever the
body — 400 only on a malformed body of a resolved job, and it never mutates
the hardware identity, so repeated POSTs with the same body keep answering
the same 200. -/
theorem C6_phone_home_idempotent (r : Option Job) (b : Option PhoneHomeBody)
    (hw : HardwareIdentity) :
    (servePhoneHome none b hw = (200, hw)) ∧
    (b ≠ none → servePhoneHome r b hw = (200, hw)) ∧
    (∀ j, r = some j → b = none → servePhoneHome r b hw = (400, hw)) ∧
    ((servePhoneHome r b hw).2 = hw ∧
      servePhoneHome r b (servePhoneHome r b hw).2 = servePhoneHome r b hw) := by
  refine ⟨?_, ?_, ?_, ?_⟩
  · cases b <;> rfl
  · intro h
    cases b with
    | none => exact absurd rfl h
    | some pb => cases r <;> rfl
  · rintro j rfl rfl
    rfl
  · cases r with
    | none => exact ⟨rfl, rfl⟩
    | some j => cases b <;> exact ⟨rfl, rfl⟩

/-- C6 witness: a resolved job with a well-formed body answers 200 and leaves
the hardware identity unchanged. -/
theorem C6_phone_home_idempotent_witness :
    servePhoneHome (some sampleJob) (some ⟨some "provisioning.104", none⟩)
      ⟨"hw-1234"⟩ = (200, ⟨"hw-1234"⟩) :=
  (C6_phone_home_idempotent (some sampleJob) (some ⟨some "provisioning.104", none⟩)
    ⟨"hw-1234"⟩).2.1 (by simp)

/-- C7: for a client that resolves to a non-empty instance ID and a
non-empty body that parses as JSON, the event handed to the inventory
backend has type `user.<code>` (decimal rendering of the body's code), the
body's state unchanged and its message as the event body, and when the post
succeeds the handler answers 200; an unreadable, empty or unparseable body
yields 400 with no event posted. -/
theorem C7_events_relay (env : EventsEnv) (host b ip deviceID : String)
    (ev : EventIn) :
    (env.parseIP host = some ip →
      getInstanceIDFromIP env.byIP ip = some deviceID → deviceID ≠ "" →
      b ≠ "" → env.parseJSON b = some ev →
      env.postOk deviceID ⟨"user." ++ toString ev.code, ev.state, ev.message⟩ = true →
      serveEvents env (some host) (some b) =
        ⟨200, some (deviceID, ⟨"user." ++ toString ev.code, ev.state, ev.message⟩)⟩) ∧
    (env.parseIP host = some ip →
      getInstanceIDFromIP env.byIP ip = some deviceID → deviceID ≠ "" →
      serveEvents env (some host) none = ⟨400, none⟩ ∧
      serveEvents env (some host) (some "") = ⟨400, none⟩ ∧
      (env.parseJSON b = none → b ≠ "" →
        serveEvents env (some host) (some b) = ⟨400, none⟩)) := by
  constructor
  · intro h1 h2 h3 h4 h5 h6
    simp [serveEvents, h1, h2, h3, h4, h5, h6]
  · intro h1 h2 h3
    refine ⟨?_, ?_, ?_⟩
    · simp [serveEvents, h1, h2, h3]
    · simp [serveEvents, h1, h2, h3]
    · intro h4 h5
      simp [serveEvents, h1, h2, h3, h4, h5]

/-- A concrete events environment used by witnesses: one known address bound
to one instance, one recognized body. -/
def sampleEventsEnv : EventsEnv :=
  ⟨fun h => if h = "192.0.2.7" then some "192.0.2.7" else none,
   fun ip => if ip = "192.0.2.7" then some ⟨some "i-abc123"⟩ else none,
   fun _ _ => true,
   fun b => if b = "body1001" then some ⟨1001, "running", "phoning home"⟩ else none⟩

/-- C7 witness: the relay evaluated on the sample environment. -/
theorem C7_events_relay_witness :
    serveEvents sampleEventsEnv (some "192.0.2.7") (some "body1001") =
      ⟨200, some ("i-abc123", ⟨"user.1001", "running", "phoning home"⟩)⟩ :=
  (C7_events_relay sampleEventsEnv "192.0.2.7" "body1001" "192.0.2.7" "i-abc123"
    ⟨1001, "running", "phoning home"⟩).1 rfl rfl (by decide) (by decide) rfl rfl

/-- C8: with a workflow finder configured, a request to /hardware-components
or /problem whose resolved job can workflow is answered 404 unless the
finder reports an active workflow (a finder error is also 404); when the job
cannot workflow the check is skipped and the endpoint served; no job is
always 404. -/
theorem C8_workflow_gate (wf : String → Option Bool) (r : Option Job) :
    (∀ j, r = some j → j.canWorkflow = true →
      (serveHardware wf r = .served ↔ wf j.hardwareID = some true) ∧
      (serveProblem (some wf) r = .served ↔ wf j.hardwareID = some true)) ∧
    (∀ j, r = some j → j.canWorkflow = false →
      serveHardware wf r = .served ∧ serveProblem (some wf) r = .served) ∧
    (serveHardware wf none = .notFound ∧ serveProblem (some wf) none = .notFound) := by
  refine ⟨?_, ?_, rfl, rfl⟩
  · rintro j rfl h
    constructor <;>
      · cases hwf : wf j.hardwareID with
        | none => simp [serveHardware, serveProblem, h, hwf]
        | some bb => cases bb <;> simp [serveHardware, serveProblem, h, hwf]
  · rintro j rfl h
    exact ⟨by simp [serveHardware, h], by simp [serveProblem, h]⟩

/-- C8 witness: the gate evaluated with an always-active finder and with a
failing finder. -/
theorem C8_workflow_gate_witness :
    serveHardware (fun _ => some true) (some sampleJob) = .served ∧
    serveProblem (some fun _ => none) (some sampleJob) = .notFound ∧
    serveHardware (fun _ => some true)
      (some { sampleJob with canWorkflowFlag := false }) = .served :=
  ⟨((C8_workflow_gate (fun _ => some true) (some sampleJob)).1 sampleJob rfl
      rfl).1.mpr rfl,
   by
    have h := ((C8_workflow_gate (fun _ => none) (some sampleJob)).1 sampleJob rfl
      rfl).2
    cases hs : serveProblem (some fun _ => none) (some sampleJob) with
    | notFound => rfl
    | served => exact absurd (h.mp hs) (by simp),
   ((C8_workflow_gate (fun _ => some true)
      (some { sampleJob with canWorkflowFlag := false })).2.1 _ rfl rfl).1⟩

/-- A concrete value standing in for `conf.OsieVendorServicesURL` in the
closed computations below. -/
def sampleOsieURL : String := "https://ovs.example.com"

/-- C9: the flatcar install.service contents for a family are exactly the
base `c3.small.x86` contents with the family's closed set of exact
whole-string replacements applied in order — `-s` to `-s -e 259` for
`s3.xlarge.x86`; ` -o packet` removed, `tty0 console=ttyS1,115200n8` to
`ttyAMA0,115200` and `amd64` to `arm64` for `c3.large.arm` — and concretely
the substitutions touch exactly the flatcar-install line (and, for arm, the
console line) of the ExecStart block. -/
theorem C9_flatcar_substitutions :
    (∀ url, script url "s3.xlarge.x86" =
        some (replacer (Exec url) [("-s", "-s -e 259")]) ∧
      script url "c3.large.arm" =
        some (replacer (Exec url)
          [(" -o packet", ""),
           ("tty0 console=ttyS1,115200n8", "ttyAMA0,115200"),
           ("amd64", "arm64")]) ∧
      ∀ typ, installServiceContents url typ =
        (script url typ).map (fun ex => goJoin (baseStart ++ ex ++ baseEnd) "\n")) ∧
    replacer (Exec sampleOsieURL) [("-s", "-s -e 259")] =
      (Exec sampleOsieURL).set 1
        ("ExecStart=/usr/bin/flatcar-install -V current -C alpha -b " ++
         "https://ovs.example.com/flatcar/amd64-usr/alpha -o packet -s -e 259") ∧
    replacer (Exec sampleOsieURL)
        [(" -o packet", ""),
         ("tty0 console=ttyS1,115200n8", "ttyAMA0,115200"),
         ("amd64", "arm64")] =
      ((Exec sampleOsieURL).set 1
        ("ExecStart=/usr/bin/flatcar-install -V current -C alpha -b " ++
         "https://ovs.example.com/flatcar/arm64-usr/alpha -s")).set 5
        "ExecStart=/usr/bin/bash -c \"/usr/bin/echo \\\"set linux_console=\\\\\\\"console=ttyAMA0,115200\\\\\\\"\\\" >> /oemmnt/grub.cfg\"" ∧
    installServiceContents sampleOsieURL "s3.xlarge.x86" =
      (installServiceContents sampleOsieURL "c3.small.x86").map
        (fun s => goReplaceAll s "-s" "-s -e 259") ∧
    installServiceContents sampleOsieURL "c3.large.arm" =
      (installServiceContents sampleOsieURL "c3.small.x86").map
        (fun s => goReplaceAll (goReplaceAll (goReplaceAll s
          " -o packet" "") "tty0 console=ttyS1,115200n8" "ttyAMA0,115200")
          "amd64" "arm64") := by
  refine ⟨fun url => ⟨rfl, rfl, fun typ => rfl⟩, ?_, ?_, ?_, ?_⟩
  · decide
  · decide
  · decide
  · decide

/-- C10: on /events an unknown client is never surfaced as an error — a host
that is not a parseable IP, a failing instance lookup, or a record with no
instance all answer 200 with nothing forwarded; 400 is reserved for an
unsplittable remote address and for a malformed or empty body of a resolved
instance. -/
theorem C10_events_unknown_client (env : EventsEnv) (host b : String)
    (body : Option String) :
    (env.parseIP host = none → serveEvents env (some host) body = ⟨200, none⟩) ∧
    (∀ ip, env.parseIP host = some ip → env.byIP ip = none →
      serveEvents env (some host) body = ⟨200, none⟩) ∧
    (∀ ip, env.parseIP host = some ip →
      getInstanceIDFromIP env.byIP ip = some "" →
      serveEvents env (some host) body = ⟨200, none⟩) ∧
    (serveEvents env none body = ⟨400, none⟩) ∧
    (∀ ip did, env.parseIP host = some ip →
      getInstanceIDFromIP env.byIP ip = some did → did ≠ "" →
      serveEvents env (some host) none = ⟨400, none⟩ ∧
      serveEvents env (some host) (some "") = ⟨400, none⟩ ∧
      (env.parseJSON b = none → b ≠ "" →
        serveEvents env (some host) (some b) = ⟨400, none⟩)) := by
  refine ⟨?_, ?_, ?_, rfl, ?_⟩
  · intro h
    simp [serveEvents, h]
  · intro ip h1 h2
    simp [serveEvents, getInstanceIDFromIP, h1, h2]
  · intro ip h1 h2
    simp [serveEvents, h1, h2]
  · intro ip did h1 h2 h3
    refine ⟨?_, ?_, ?_⟩
    · simp [serveEvents, h1, h2, h3]
    · simp [serveEvents, h1, h2, h3]
    · intro h4 h5
      simp [serveEvents, h1, h2, h3, h4, h5]

/-- C10 witness: unknown host and no-instance record both answer 200 with
nothing forwarded; the unsplittable address answers 400. -/
theorem C10_events_unknown_client_witness :
    serveEvents sampleEventsEnv (some "not-an-ip") (some "body1001") =
      ⟨200, none⟩ ∧
    serveEvents sampleEventsEnv none (some "body1001") = ⟨400, none⟩ ∧
    serveEvents sampleEventsEnv (some "192.0.2.7") (some "") = ⟨400, none⟩ :=
  ⟨(C10_events_unknown_client sampleEventsEnv "not-an-ip" "x" (some "body1001")).1
      rfl,
   (C10_events_unknown_client sampleEventsEnv "y" "x" (some "body1001")).2.2.2.1,
   ((C10_events_unknown_client sampleEventsEnv "192.0.2.7" "x"
      (some "")).2.2.2.2 "192.0.2.7" "i-abc123" rfl rfl (by decide)).2.1⟩

end Boots
